import Mathlib

/-!
Verification of the metabridge-hub NEAR bridge core.

The repository source under verification is `src/contracts/near/src/events.rs`
(the Event Emitter).  The Ledger component (lock/unlock) is described by the
specification but its code is not part of the source tree, so it is modelled
from the specification where claims require it.

Machine integers: `Balance` is `u128` and nonces/timestamps are `u64` in the
source; all arithmetic here is plain `Nat` addition/comparison with no
overflowing operation, so no modular reduction is needed.
-/

namespace MetaBridge

/-- NEAR account identifier; in the source an `AccountId` wraps a validated
string, serialized as its underlying string. -/
abbrev AccountId := String

/-- NEAR balance type, `u128` in the source. -/
abbrev Balance := Nat

/-- `TokenLockedEvent` from `events.rs`: event emitted when tokens are
locked. -/
structure TokenLockedEvent where
  message_id : String
  sender : AccountId
  token_contract : AccountId
  amount : Balance
  destination_chain : String
  destination_address : String
  nonce : Nat
  timestamp : Nat
deriving DecidableEq, Repr

/-- `TokenUnlockedEvent` from `events.rs`: event emitted when tokens are
unlocked. -/
structure TokenUnlockedEvent where
  message_id : String
  source_chain : String
  sender_address : String
  recipient : AccountId
  token_contract : AccountId
  amount : Balance
  timestamp : Nat
deriving DecidableEq, Repr

/-- Error produced by a failing structured serialization
(`serde_json::Error` in the source, abstracted). -/
inductive SerializationError where
  | serError
deriving DecidableEq, Repr

/-- A flat JSON value: the event structs serialize to objects whose field
values are strings or unsigned integers only. -/
inductive JVal where
  | jstr : String → JVal
  | jnum : Nat → JVal
deriving DecidableEq, Repr

/-- One hexadecimal digit, lower case, as used in JSON escapes. -/
def hexDigit (n : Nat) : String :=
  if n < 10 then Nat.repr n
  else if n = 10 then ("a") else if n = 11 then ("b") else if n = 12 then ("c")
  else if n = 13 then ("d") else if n = 14 then ("e") else ("f")

/-- JSON string-character escaping as performed by `serde_json`. -/
def escapeChar (c : Char) : String :=
  if c = '"' then ("\\\"")
  else if c = '\\' then ("\\\\")
  else if c = '\n' then ("\\n")
  else if c = '\t' then ("\\t")
  else if c = '\r' then ("\\r")
  else if c = '\x08' then ("\\b")
  else if c = '\x0c' then ("\\f")
  else if c.toNat < 32 then
    ("\\u00") ++ hexDigit (c.toNat / 16) ++ hexDigit (c.toNat % 16)
  else String.singleton c

/-- A JSON string literal: quoted, with characters escaped. -/
def encodeJsonString (s : String) : String :=
  ("\"") ++ String.join (s.toList.map escapeChar) ++ ("\"")

/-- Render a flat JSON value.  Numbers render in full decimal, as
`serde_json` does for `u64`/`u128` (no 64-bit truncation). -/
def JVal.render : JVal → String
  | .jstr s => encodeJsonString s
  | .jnum n => Nat.repr n

/-- Render a JSON object given its ordered field list. -/
def renderObj (fields : List (String × JVal)) : String :=
  ("\x7b") ++
    String.intercalate (",") (fields.map fun p => encodeJsonString p.1 ++ (":") ++ p.2.render) ++
  ("\x7d")

/-- The ordered field list that `serde` derives for `TokenLockedEvent`:
declaration order, all eight fields, amount as an unbounded integer. -/
def tokenLockedFields (e : TokenLockedEvent) : List (String × JVal) :=
  [(("message_id"), .jstr e.message_id),
   (("sender"), .jstr e.sender),
   (("token_contract"), .jstr e.token_contract),
   (("amount"), .jnum e.amount),
   (("destination_chain"), .jstr e.destination_chain),
   (("destination_address"), .jstr e.destination_address),
   (("nonce"), .jnum e.nonce),
   (("timestamp"), .jnum e.timestamp)]

/-- The ordered field list that `serde` derives for `TokenUnlockedEvent`. -/
def tokenUnlockedFields (e : TokenUnlockedEvent) : List (String × JVal) :=
  [(("message_id"), .jstr e.message_id),
   (("source_chain"), .jstr e.source_chain),
   (("sender_address"), .jstr e.sender_address),
   (("recipient"), .jstr e.recipient),
   (("token_contract"), .jstr e.token_contract),
   (("amount"), .jnum e.amount),
   (("timestamp"), .jnum e.timestamp)]

/-- `near_sdk::serde_json::to_string` on a `TokenLockedEvent`: succeeds for
every event value (all field types serialize infallibly). -/
def serde_json_to_string_locked (e : TokenLockedEvent) :
    Except SerializationError String :=
  .ok (renderObj (tokenLockedFields e))

/-- `near_sdk::serde_json::to_string` on a `TokenUnlockedEvent`. -/
def serde_json_to_string_unlocked (e : TokenUnlockedEvent) :
    Except SerializationError String :=
  .ok (renderObj (tokenUnlockedFields e))

/-- The `unwrap_or_else(|_| "\x7b\x7d".to_string())` pattern from the source:
take the serialized string, or the empty JSON object on failure. -/
def unwrap_or_empty_object (r : Except SerializationError String) : String :=
  match r with
  | .ok s => s
  | .error _ => ("\x7b\x7d")

/-- The log-line layout as given by the specification (section 6):
`EVENT_JSON:` followed by a tagged JSON object with a fixed standard name,
a version, an event-kind discriminator and a data payload. -/
def specEventLine (standard version event data : String) : String :=
  ("EVENT_JSON:\x7b\"standard\":\"") ++ standard ++
  ("\",\"version\":\"") ++ version ++
  ("\",\"event\":\"") ++ event ++
  ("\",\"data\":") ++ data ++ ("\x7d")

/-- `emit_token_locked_event` from `events.rs`, parameterized over the
external serializer (`near_sdk::serde_json::to_string`) so that the failure
branch of `unwrap_or_else` can be analysed.  Returns the produced log line. -/
def emit_token_locked_event_with
    (to_string : TokenLockedEvent → Except SerializationError String)
    (event : TokenLockedEvent) : String :=
  let event_json := unwrap_or_empty_object (to_string event)
  ("EVENT_JSON:\x7b\"standard\":\"articium\",\"version\":\"1.0.0\",\"event\":\"token_locked\",\"data\":")
    ++ event_json ++ ("\x7d")

/-- `emit_token_unlocked_event` from `events.rs`, parameterized over the
external serializer. -/
def emit_token_unlocked_event_with
    (to_string : TokenUnlockedEvent → Except SerializationError String)
    (event : TokenUnlockedEvent) : String :=
  let event_json := unwrap_or_empty_object (to_string event)
  ("EVENT_JSON:\x7b\"standard\":\"articium\",\"version\":\"1.0.0\",\"event\":\"token_unlocked\",\"data\":")
    ++ event_json ++ ("\x7d")

/-- `emit_token_locked_event` with the actual serializer. -/
def emit_token_locked_event : TokenLockedEvent → String :=
  emit_token_locked_event_with serde_json_to_string_locked

/-- `emit_token_unlocked_event` with the actual serializer. -/
def emit_token_unlocked_event : TokenUnlockedEvent → String :=
  emit_token_unlocked_event_with serde_json_to_string_unlocked

/-- Look up a string-valued field in a flat JSON object, as the derived
`Deserialize` impl does for a `String` field. -/
def getStr (fields : List (String × JVal)) (k : String) : Option String :=
  match fields.lookup k with
  | some (.jstr s) => some s
  | _ => none

/-- Look up a numeric field in a flat JSON object. -/
def getNum (fields : List (String × JVal)) (k : String) : Option Nat :=
  match fields.lookup k with
  | some (.jnum n) => some n
  | _ => none

/-- The derived `Deserialize` impl for `TokenLockedEvent`: every field is
required, read from the object by name. -/
def tokenLockedFromFields (fs : List (String × JVal)) : Option TokenLockedEvent := do
  let message_id ← getStr fs ("message_id")
  let sender ← getStr fs ("sender")
  let token_contract ← getStr fs ("token_contract")
  let amount ← getNum fs ("amount")
  let destination_chain ← getStr fs ("destination_chain")
  let destination_address ← getStr fs ("destination_address")
  let nonce ← getNum fs ("nonce")
  let timestamp ← getNum fs ("timestamp")
  pure ⟨message_id, sender, token_contract, amount, destination_chain,
        destination_address, nonce, timestamp⟩

/-- The derived `Deserialize` impl for `TokenUnlockedEvent`. -/
def tokenUnlockedFromFields (fs : List (String × JVal)) : Option TokenUnlockedEvent := do
  let message_id ← getStr fs ("message_id")
  let source_chain ← getStr fs ("source_chain")
  let sender_address ← getStr fs ("sender_address")
  let recipient ← getStr fs ("recipient")
  let token_contract ← getStr fs ("token_contract")
  let amount ← getNum fs ("amount")
  let timestamp ← getNum fs ("timestamp")
  pure ⟨message_id, source_chain, sender_address, recipient, token_contract,
        amount, timestamp⟩

/-! ## The Ledger

Modelled from the spec: the Ledger component (section 4.1) is not present in
the source tree (only the Event Emitter is); the definitions below follow the
specification's words.  Message identities are counter-based (the spec allows
"counter-based" derivation), so `message_id` is a `Nat` here. -/

/-- Modelled from the spec: the Ledger error taxonomy of sections 4.1 and 7
(the Ledger code is missing from the source tree). -/
inductive LedgerError where
  | InvalidAmount
  | InvalidDestination
  | UnknownMessage
  | AlreadyConsumed
  | AmountMismatch
  | TokenMismatch
deriving DecidableEq, Repr

/-- Modelled from the spec: a `LockRecord` (section 3), immutable once created
except for the terminal `consumed` flag. -/
structure LockRecord where
  message_id : Nat
  sender : String
  token_contract : String
  amount : Nat
  destination_chain : String
  destination_address : String
  nonce : Nat
  timestamp : Nat
  consumed : Bool
deriving DecidableEq, Repr

/-- Modelled from the spec: an `UnlockRecord` (section 3). -/
structure UnlockRecord where
  message_id : Nat
  source_chain : String
  sender_address : String
  recipient : String
  token_contract : String
  amount : Nat
  timestamp : Nat
deriving DecidableEq, Repr

/-- Modelled from the spec: the Ledger state — lock records (never deleted),
unlock records, and the monotonic nonce counter. -/
structure Ledger where
  locks : List LockRecord
  unlocks : List UnlockRecord
  next_nonce : Nat
deriving DecidableEq, Repr

/-- The empty Ledger. -/
def Ledger.empty : Ledger := ⟨[], [], 0⟩

/-- Find the lock record stored under a message identity. -/
def findLock (mid : Nat) (L : Ledger) : Option LockRecord :=
  L.locks.find? (fun r => r.message_id == mid)

/-- Modelled from the spec: `lock` (section 4.1) — validates, allocates the
next nonce, derives a fresh counter-based message_id, stores the record. -/
def lock (sender token_contract : String) (amount : Nat)
    (destination_chain destination_address : String) (timestamp : Nat)
    (L : Ledger) : Except LedgerError (LockRecord × Ledger) :=
  if amount = 0 then .error .InvalidAmount
  else if destination_chain = ("") ∨ destination_address = ("") then
    .error .InvalidDestination
  else
    let r : LockRecord :=
      ⟨L.next_nonce, sender, token_contract, amount, destination_chain,
       destination_address, L.next_nonce, timestamp, false⟩
    .ok (r, ⟨L.locks ++ [r], L.unlocks, L.next_nonce + 1⟩)

/-- Set the terminal `consumed` flag on the record with the given
message identity. -/
def consumeLock (mid : Nat) (r : LockRecord) : LockRecord :=
  if r.message_id == mid then { r with consumed := true } else r

/-- Modelled from the spec: `unlock` (section 4.1) — requires an existing,
unconsumed lock record with matching amount and token; marks it consumed
atomically with the creation of the unlock record. -/
def unlock (mid : Nat) (source_chain sender_address recipient : String)
    (claimed_amount : Nat) (claimed_token : String) (timestamp : Nat)
    (L : Ledger) : Except LedgerError (UnlockRecord × Ledger) :=
  match findLock mid L with
  | none => .error .UnknownMessage
  | some r =>
    if r.consumed then .error .AlreadyConsumed
    else if claimed_amount ≠ r.amount then .error .AmountMismatch
    else if claimed_token ≠ r.token_contract then .error .TokenMismatch
    else
      let u : UnlockRecord :=
        ⟨mid, source_chain, sender_address, recipient, claimed_token,
         claimed_amount, timestamp⟩
      .ok (u, ⟨L.locks.map (consumeLock mid), L.unlocks ++ [u], L.next_nonce⟩)

/-- A Ledger operation: the two entry points of section 4.1. -/
inductive Op where
  | lockOp (sender token_contract : String) (amount : Nat)
      (destination_chain destination_address : String) (timestamp : Nat)
  | unlockOp (message_id : Nat) (source_chain sender_address recipient : String)
      (claimed_amount : Nat) (claimed_token : String) (timestamp : Nat)

/-- The state after one operation: a failing call leaves the Ledger
unchanged (each call either fully commits or fully fails). -/
def applyOp (o : Op) (L : Ledger) : Ledger :=
  match o with
  | .lockOp s t a dc da ts =>
    match lock s t a dc da ts L with
    | .ok p => p.2
    | .error _ => L
  | .unlockOp mid sc sa rcp ca ct ts =>
    match unlock mid sc sa rcp ca ct ts L with
    | .ok p => p.2
    | .error _ => L

/-- The state after a sequence of operations. -/
def runOps (ops : List Op) (L : Ledger) : Ledger :=
  ops.foldl (fun acc o => applyOp o acc) L

/-- Well-formedness: every stored message identity and nonce is below the
counter, and stored nonces are strictly increasing in creation order.
Holds for the empty Ledger and is preserved by every operation. -/
def WF (L : Ledger) : Prop :=
  (∀ r ∈ L.locks, r.message_id < L.next_nonce ∧ r.nonce < L.next_nonce) ∧
  (L.locks.map (fun r => r.nonce)).Pairwise (· < ·)

instance (L : Ledger) : Decidable (WF L) := by
  unfold WF; infer_instance

/-- Message identity `mid` has been consumed: a lock record for it exists and
every lock record for it carries the terminal flag. -/
def ConsumedAt (mid : Nat) (L : Ledger) : Prop :=
  (∃ r ∈ L.locks, r.message_id = mid) ∧
  (∀ r ∈ L.locks, r.message_id = mid → r.consumed = true)

instance (mid : Nat) (L : Ledger) : Decidable (ConsumedAt mid L) := by
  unfold ConsumedAt; infer_instance

/-! ## The emission side effect

`log!` in the source appends one line to the host chain's public log; it has
no access to Ledger state. -/

/-- The observable state an emitter call runs against: the Ledger and the
host log. -/
structure EmitterState where
  ledger : Ledger
  logs : List String
deriving Repr

/-- `log!` from `near_sdk`: append one line to the host log. -/
def hostLog (line : String) (s : EmitterState) : EmitterState :=
  ⟨s.ledger, s.logs ++ [line]⟩

/-- `emit_token_locked_event` as a state transition: its only effect is the
`log!` call. -/
def emit_token_locked_event_st (e : TokenLockedEvent) (s : EmitterState) :
    EmitterState :=
  hostLog (emit_token_locked_event e) s

/-- `emit_token_unlocked_event` as a state transition. -/
def emit_token_unlocked_event_st (e : TokenUnlockedEvent) (s : EmitterState) :
    EmitterState :=
  hostLog (emit_token_unlocked_event e) s

/-! ## Concrete sample values used to instantiate theorems -/

/-- A sample locked-token event. -/
def sampleLockedEvent : TokenLockedEvent :=
  ⟨("m1"), ("alice.near"), ("token.near"), 1000, ("ethereum"), ("0xabc"), 1, 111⟩

/-- A sample unlocked-token event. -/
def sampleUnlockedEvent : TokenUnlockedEvent :=
  ⟨("m1"), ("ethereum"), ("0xabc"), ("bob.near"), ("token.near"), 1000, 222⟩

/-- A Ledger holding one unconsumed lock record. -/
def sampleLedger : Ledger :=
  ⟨[⟨0, ("alice"), ("tok"), 100, ("eth"), ("0xabc"), 0, 5, false⟩], [], 1⟩

/-- `sampleLedger` after its single lock has been unlocked. -/
def sampleConsumedLedger : Ledger :=
  ⟨[⟨0, ("alice"), ("tok"), 100, ("eth"), ("0xabc"), 0, 5, true⟩],
   [⟨0, ("near"), ("alice"), ("bob"), ("tok"), 100, 9⟩], 1⟩

/-! ## Helper lemmas about the Ledger -/

/-- `consumeLock` does not change the message identity. -/
theorem consumeLock_message_id (mid : Nat) (r : LockRecord) :
    (consumeLock mid r).message_id = r.message_id := by
  unfold consumeLock
  split <;> rfl

/-- `consumeLock` does not change the nonce. -/
theorem consumeLock_nonce (mid : Nat) (r : LockRecord) :
    (consumeLock mid r).nonce = r.nonce := by
  unfold consumeLock
  split <;> rfl

/-- `consumeLock` never clears the terminal flag. -/
theorem consumeLock_consumed_mono (mid : Nat) (r : LockRecord)
    (h : r.consumed = true) : (consumeLock mid r).consumed = true := by
  unfold consumeLock
  split
  · rfl
  · exact h

/-- `consumeLock` sets the terminal flag on the targeted record. -/
theorem consumeLock_consumed_self (mid : Nat) (r : LockRecord)
    (h : r.message_id = mid) : (consumeLock mid r).consumed = true := by
  unfold consumeLock
  rw [if_pos (by simp [h])]

/-- Shape of a successful `lock`: the returned record is fresh and the new
state appends it and bumps the counter. -/
theorem lock_ok_shape {s t : String} {a : Nat} {dc da : String} {ts : Nat}
    {L : Ledger} {p : LockRecord × Ledger}
    (h : lock s t a dc da ts L = .ok p) :
    p.1 = ⟨L.next_nonce, s, t, a, dc, da, L.next_nonce, ts, false⟩ ∧
    p.2 = ⟨L.locks ++ [p.1], L.unlocks, L.next_nonce + 1⟩ := by
  unfold lock at h
  split at h
  · exact Except.noConfusion h
  split at h
  · exact Except.noConfusion h
  cases h
  exact ⟨rfl, rfl⟩

/-- Shape of a successful `unlock`: an unconsumed matching lock record was
found, and the new state consumes it and appends the unlock record. -/
theorem unlock_ok_shape {mid : Nat} {sc sa rcp : String} {ca : Nat}
    {ct : String} {ts : Nat} {L : Ledger} {p : UnlockRecord × Ledger}
    (h : unlock mid sc sa rcp ca ct ts L = .ok p) :
    ∃ r, findLock mid L = some r ∧ r.consumed = false ∧
      ca = r.amount ∧ ct = r.token_contract ∧
      p.1 = ⟨mid, sc, sa, rcp, ct, ca, ts⟩ ∧
      p.2 = ⟨L.locks.map (consumeLock mid), L.unlocks ++ [p.1], L.next_nonce⟩ := by
  unfold unlock at h
  split at h
  · exact Except.noConfusion h
  rename_i r hf
  split at h
  · exact Except.noConfusion h
  rename_i hc
  split at h
  · exact Except.noConfusion h
  rename_i hca
  split at h
  · exact Except.noConfusion h
  rename_i hct
  cases h
  exact ⟨r, hf, Bool.of_not_eq_true hc, Decidable.of_not_not hca,
         Decidable.of_not_not hct, rfl, rfl⟩

/-- `lock` preserves Ledger well-formedness. -/
theorem wf_lock_ok {s t : String} {a : Nat} {dc da : String} {ts : Nat}
    {L : Ledger} {p : LockRecord × Ledger}
    (hWF : WF L) (h : lock s t a dc da ts L = .ok p) : WF p.2 := by
  obtain ⟨h1, h2⟩ := lock_ok_shape h
  obtain ⟨hb, hpw⟩ := hWF
  rw [h2]
  constructor
  · intro r hr
    rcases List.mem_append.mp hr with hr | hr
    · exact ⟨Nat.lt_succ_of_lt (hb r hr).1, Nat.lt_succ_of_lt (hb r hr).2⟩
    · have := List.mem_singleton.mp hr
      subst this
      rw [h1]
      exact ⟨Nat.lt_succ_self _, Nat.lt_succ_self _⟩
  · rw [List.map_append, List.pairwise_append]
    refine ⟨hpw, List.pairwise_singleton _ _, ?_⟩
    intro x hx b hbm
    obtain ⟨r0, hr0, rfl⟩ := List.mem_map.mp hx
    have hb1 : b = p.1.nonce := by
      simpa using List.mem_singleton.mp (by simpa using hbm)
    rw [hb1, h1]
    exact (hb r0 hr0).2

/-- `unlock` preserves Ledger well-formedness. -/
theorem wf_unlock_ok {mid : Nat} {sc sa rcp : String} {ca : Nat}
    {ct : String} {ts : Nat} {L : Ledger} {p : UnlockRecord × Ledger}
    (hWF : WF L) (h : unlock mid sc sa rcp ca ct ts L = .ok p) : WF p.2 := by
  obtain ⟨r, hf, hc, hca, hct, hu, hL2⟩ := unlock_ok_shape h
  obtain ⟨hb, hpw⟩ := hWF
  rw [hL2]
  constructor
  · intro r2 hr2
    obtain ⟨r0, hr0, rfl⟩ := List.mem_map.mp hr2
    rw [consumeLock_message_id, consumeLock_nonce]
    exact hb r0 hr0
  · have hmm : (L.locks.map (consumeLock mid)).map (fun r => r.nonce) =
        L.locks.map (fun r => r.nonce) := by
      rw [List.map_map]
      exact List.map_congr_left (fun r0 _ => consumeLock_nonce mid r0)
    rw [hmm]
    exact hpw

/-- Every operation preserves Ledger well-formedness. -/
theorem wf_applyOp (o : Op) (L : Ledger) (hWF : WF L) : WF (applyOp o L) := by
  cases o with
  | lockOp s t a dc da ts =>
    cases hl : lock s t a dc da ts L with
    | error e => simpa [applyOp, hl] using hWF
    | ok p => simpa [applyOp, hl] using wf_lock_ok hWF hl
  | unlockOp mid sc sa rcp ca ct ts =>
    cases hu : unlock mid sc sa rcp ca ct ts L with
    | error e => simpa [applyOp, hu] using hWF
    | ok p => simpa [applyOp, hu] using wf_unlock_ok hWF hu

/-- Every sequence of operations preserves Ledger well-formedness. -/
theorem wf_runOps (ops : List Op) : ∀ L : Ledger, WF L → WF (runOps ops L) := by
  induction ops with
  | nil => intro L hWF; exact hWF
  | cons o rest ih =>
    intro L hWF
    have hstep : runOps (o :: rest) L = runOps rest (applyOp o L) := rfl
    rw [hstep]
    exact ih _ (wf_applyOp o L hWF)

/-- A successful `lock` preserves consumption of an existing message_id
(the fresh record cannot reuse a bounded identity). -/
theorem consumedAt_lock_ok {s t : String} {a : Nat} {dc da : String}
    {ts : Nat} {L : Ledger} {p : LockRecord × Ledger} (mid : Nat)
    (hWF : WF L) (hC : ConsumedAt mid L)
    (h : lock s t a dc da ts L = .ok p) : ConsumedAt mid p.2 := by
  obtain ⟨h1, h2⟩ := lock_ok_shape h
  obtain ⟨⟨r0, hr0, hid0⟩, hall⟩ := hC
  have hmidlt : mid < L.next_nonce := hid0 ▸ (hWF.1 r0 hr0).1
  rw [h2]
  refine ⟨⟨r0, List.mem_append_left _ hr0, hid0⟩, ?_⟩
  intro r hr hid
  rcases List.mem_append.mp hr with hr | hr
  · exact hall r hr hid
  · exfalso
    have := List.mem_singleton.mp hr
    subst this
    rw [h1] at hid
    exact absurd hid.symm (Nat.ne_of_lt hmidlt)

/-- A successful `unlock` (of any message_id) preserves consumption. -/
theorem consumedAt_unlock_ok {mid2 : Nat} {sc sa rcp : String} {ca : Nat}
    {ct : String} {ts : Nat} {L : Ledger} {p : UnlockRecord × Ledger}
    (mid : Nat) (hC : ConsumedAt mid L)
    (h : unlock mid2 sc sa rcp ca ct ts L = .ok p) : ConsumedAt mid p.2 := by
  obtain ⟨r, hf, hc, hca, hct, hu, hL2⟩ := unlock_ok_shape h
  obtain ⟨⟨r0, hr0, hid0⟩, hall⟩ := hC
  rw [hL2]
  constructor
  · exact ⟨consumeLock mid2 r0, List.mem_map_of_mem _ hr0,
      by rw [consumeLock_message_id]; exact hid0⟩
  · intro r2 hr2 hid2
    obtain ⟨r1, hr1, rfl⟩ := List.mem_map.mp hr2
    rw [consumeLock_message_id] at hid2
    exact consumeLock_consumed_mono _ _ (hall r1 hr1 hid2)

/-- A successful `unlock` establishes consumption of its message_id. -/
theorem unlock_establishes_consumed {mid : Nat} {sc sa rcp : String}
    {ca : Nat} {ct : String} {ts : Nat} {L : Ledger}
    {p : UnlockRecord × Ledger}
    (h : unlock mid sc sa rcp ca ct ts L = .ok p) : ConsumedAt mid p.2 := by
  obtain ⟨r, hf, hc, hca, hct, hu, hL2⟩ := unlock_ok_shape h
  unfold findLock at hf
  have hmem := List.mem_of_find?_eq_some hf
  have hid : r.message_id = mid := by simpa using List.find?_some hf
  rw [hL2]
  constructor
  · exact ⟨consumeLock mid r, List.mem_map_of_mem _ hmem,
      by rw [consumeLock_message_id]; exact hid⟩
  · intro r2 hr2 hid2
    obtain ⟨r1, hr1, rfl⟩ := List.mem_map.mp hr2
    rw [consumeLock_message_id] at hid2
    exact consumeLock_consumed_self _ _ hid2

/-- Every operation preserves consumption, given well-formedness. -/
theorem wf_consumedAt_applyOp (mid : Nat) (o : Op) (L : Ledger)
    (hWF : WF L) (hC : ConsumedAt mid L) :
    WF (applyOp o L) ∧ ConsumedAt mid (applyOp o L) := by
  cases o with
  | lockOp s t a dc da ts =>
    cases hl : lock s t a dc da ts L with
    | error e => simpa [applyOp, hl] using ⟨hWF, hC⟩
    | ok p =>
      simpa [applyOp, hl] using ⟨wf_lock_ok hWF hl, consumedAt_lock_ok mid hWF hC hl⟩
  | unlockOp mid2 sc sa rcp ca ct ts =>
    cases hu : unlock mid2 sc sa rcp ca ct ts L with
    | error e => simpa [applyOp, hu] using ⟨hWF, hC⟩
    | ok p =>
      simpa [applyOp, hu] using ⟨wf_unlock_ok hWF hu, consumedAt_unlock_ok mid hC hu⟩

/-- Consumption of a message_id persists across any operation sequence. -/
theorem wf_consumedAt_runOps (mid : Nat) (ops : List Op) :
    ∀ L : Ledger, WF L → ConsumedAt mid L →
      WF (runOps ops L) ∧ ConsumedAt mid (runOps ops L) := by
  induction ops with
  | nil => intro L hWF hC; exact ⟨hWF, hC⟩
  | cons o rest ih =>
    intro L hWF hC
    have hstep : runOps (o :: rest) L = runOps rest (applyOp o L) := rfl
    rw [hstep]
    have := wf_consumedAt_applyOp mid o L hWF hC
    exact ih _ this.1 this.2

/-- `unlock` on a consumed message_id fails with `AlreadyConsumed`. -/
theorem unlock_already_consumed_of {mid : Nat} {sc sa rcp : String}
    {ca : Nat} {ct : String} {ts : Nat} {L : Ledger}
    (h : ConsumedAt mid L) :
    unlock mid sc sa rcp ca ct ts L = .error .AlreadyConsumed := by
  obtain ⟨⟨r0, hr0, hid0⟩, hall⟩ := h
  have hfind : (L.locks.find? (fun r => r.message_id == mid)).isSome :=
    List.find?_isSome.mpr ⟨r0, hr0, by simp [hid0]⟩
  obtain ⟨r, hr⟩ := Option.isSome_iff_exists.mp hfind
  have hmem := List.mem_of_find?_eq_some hr
  have hid : r.message_id = mid := by simpa using List.find?_some hr
  have hcons := hall r hmem hid
  simp [unlock, findLock, hr, hcons]

/-! ## Claim theorems -/

/-- C1: for every message_id, at most one `unlock` ever succeeds — once an
unlock for a message_id has succeeded, every subsequent unlock attempt with
that message_id fails with `AlreadyConsumed`, whatever (lock or unlock)
operations run in between: a message_id transitions Locked → Unlocked
exactly once and never again. -/
theorem unlock_succeeds_at_most_once
    (L : Ledger) (mid : Nat) (sc sa rcp : String) (ca : Nat) (ct : String)
    (ts : Nat) (u : UnlockRecord) (L2 : Ledger)
    (hWF : WF L)
    (h : unlock mid sc sa rcp ca ct ts L = .ok (u, L2)) :
    ∀ (ops : List Op) (sc2 sa2 rcp2 : String) (ca2 : Nat) (ct2 : String)
      (ts2 : Nat),
      unlock mid sc2 sa2 rcp2 ca2 ct2 ts2 (runOps ops L2) =
        .error .AlreadyConsumed := by
  intro ops sc2 sa2 rcp2 ca2 ct2 ts2
  have hWF2 : WF L2 := wf_unlock_ok hWF h
  have hC2 : ConsumedAt mid L2 := unlock_establishes_consumed h
  have hrun := wf_consumedAt_runOps mid ops L2 hWF2 hC2
  exact unlock_already_consumed_of hrun.2

/-- Witness for C1 at a concrete Ledger: after the single lock of
`sampleLedger` is unlocked, a retry after an interleaved lock fails with
`AlreadyConsumed`. -/
theorem unlock_succeeds_at_most_once_witness :
    unlock 0 ("near") ("alice") ("carol") 100 ("tok") 20
      (runOps [Op.lockOp ("dave") ("tok") 50 ("eth") ("0x1") 10]
        sampleConsumedLedger) = .error .AlreadyConsumed :=
  unlock_succeeds_at_most_once sampleLedger 0 ("near") ("alice") ("bob") 100
    ("tok") 9 ⟨0, ("near"), ("alice"), ("bob"), ("tok"), 100, 9⟩
    sampleConsumedLedger (by decide) rfl
    [Op.lockOp ("dave") ("tok") 50 ("eth") ("0x1") 10]
    ("near") ("alice") ("carol") 100 ("tok") 20

/-- C2: neither emitter can fail the surrounding operation — both are total,
and whenever the structured serialization of the event fails, the emitted
log line carries the well-defined empty-payload fallback (an empty JSON
object as the `data` field); the serialization error is never propagated. -/
theorem emit_never_fails
    (tsL : TokenLockedEvent → Except SerializationError String)
    (tsU : TokenUnlockedEvent → Except SerializationError String)
    (eL : TokenLockedEvent) (eU : TokenUnlockedEvent)
    (errL errU : SerializationError)
    (hL : tsL eL = .error errL) (hU : tsU eU = .error errU) :
    emit_token_locked_event_with tsL eL =
      specEventLine ("articium") ("1.0.0") ("token_locked") ("\x7b\x7d") ∧
    emit_token_unlocked_event_with tsU eU =
      specEventLine ("articium") ("1.0.0") ("token_unlocked") ("\x7b\x7d") := by
  constructor
  · simp only [emit_token_locked_event_with, unwrap_or_empty_object, hL,
      specEventLine]
    rfl
  · simp only [emit_token_unlocked_event_with, unwrap_or_empty_object, hU,
      specEventLine]
    rfl

/-- Witness for C2 with a serializer that always fails: the emitted lines
carry the empty-object payload. -/
theorem emit_never_fails_witness :
    emit_token_locked_event_with (fun _ => .error .serError) sampleLockedEvent =
      specEventLine ("articium") ("1.0.0") ("token_locked") ("\x7b\x7d") ∧
    emit_token_unlocked_event_with (fun _ => .error .serError) sampleUnlockedEvent =
      specEventLine ("articium") ("1.0.0") ("token_unlocked") ("\x7b\x7d") :=
  emit_never_fails (fun _ => .error .serError) (fun _ => .error .serError)
    sampleLockedEvent sampleUnlockedEvent .serError .serError rfl rfl

/-- C3: every emitted log line has exactly the format
`EVENT_JSON:` followed by an object with the fixed standard name
(`articium`, the same for both emitters), version `1.0.0`, event
discriminator `token_locked` resp. `token_unlocked`, and a data payload. -/
theorem emit_event_line_format (eL : TokenLockedEvent) (eU : TokenUnlockedEvent) :
    (∃ data, emit_token_locked_event eL =
      specEventLine ("articium") ("1.0.0") ("token_locked") data) ∧
    (∃ data, emit_token_unlocked_event eU =
      specEventLine ("articium") ("1.0.0") ("token_unlocked") data) := by
  constructor
  · refine ⟨renderObj (tokenLockedFields eL), ?_⟩
    simp only [emit_token_locked_event, emit_token_locked_event_with,
      serde_json_to_string_locked, unwrap_or_empty_object, specEventLine]
    congr 1
  · refine ⟨renderObj (tokenUnlockedFields eU), ?_⟩
    simp only [emit_token_unlocked_event, emit_token_unlocked_event_with,
      serde_json_to_string_unlocked, unwrap_or_empty_object, specEventLine]
    congr 1

/-- C4: the `token_locked` data payload is an object with exactly the eight
required fields in order — message_id, sender, token_contract, amount,
destination_chain, destination_address, nonce, timestamp; serialization
succeeds for every event, the amount is carried as an unbounded integer
equal to the event's amount, and its decimal rendering is faithful beyond
the 64-bit signed range (shown at 2^64). -/
theorem token_locked_payload_fields (e : TokenLockedEvent) :
    serde_json_to_string_locked e = .ok (renderObj (tokenLockedFields e)) ∧
    (tokenLockedFields e).map Prod.fst =
      [("message_id"), ("sender"), ("token_contract"), ("amount"),
       ("destination_chain"), ("destination_address"), ("nonce"), ("timestamp")] ∧
    (tokenLockedFields e).lookup ("amount") = some (.jnum e.amount) ∧
    emit_token_locked_event e =
      specEventLine ("articium") ("1.0.0") ("token_locked")
        (renderObj (tokenLockedFields e)) ∧
    (JVal.jnum (2 ^ 64)).render = ("18446744073709551616") := by
  refine ⟨rfl, rfl, rfl, ?_, by decide⟩
  simp only [emit_token_locked_event, emit_token_locked_event_with,
    serde_json_to_string_locked, unwrap_or_empty_object, specEventLine]
  congr 1

/-- C5: the `token_unlocked` data payload is an object with exactly the
seven fields message_id, source_chain, sender_address, recipient,
token_contract, amount, timestamp, and it is what
`emit_token_unlocked_event` puts in the data slot. -/
theorem token_unlocked_payload_fields (e : TokenUnlockedEvent) :
    serde_json_to_string_unlocked e = .ok (renderObj (tokenUnlockedFields e)) ∧
    (tokenUnlockedFields e).map Prod.fst =
      [("message_id"), ("source_chain"), ("sender_address"), ("recipient"),
       ("token_contract"), ("amount"), ("timestamp")] ∧
    emit_token_unlocked_event e =
      specEventLine ("articium") ("1.0.0") ("token_unlocked")
        (renderObj (tokenUnlockedFields e)) := by
  refine ⟨rfl, rfl, ?_⟩
  simp only [emit_token_unlocked_event, emit_token_unlocked_event_with,
    serde_json_to_string_unlocked, unwrap_or_empty_object, specEventLine]
  congr 1

/-- C6: `unlock` on a message_id that was never locked fails with
`UnknownMessage`; the rejection changes no Ledger state and retrying it
produces the same rejection (deterministic and idempotent). -/
theorem unlock_unknown_message
    (L : Ledger) (mid : Nat) (sc sa rcp : String) (ca : Nat) (ct : String)
    (ts : Nat) (h : findLock mid L = none) :
    unlock mid sc sa rcp ca ct ts L = .error .UnknownMessage ∧
    applyOp (.unlockOp mid sc sa rcp ca ct ts) L = L ∧
    unlock mid sc sa rcp ca ct ts
      (applyOp (.unlockOp mid sc sa rcp ca ct ts) L) =
      .error .UnknownMessage := by
  have h1 : unlock mid sc sa rcp ca ct ts L = .error .UnknownMessage := by
    simp [unlock, h]
  have h2 : applyOp (.unlockOp mid sc sa rcp ca ct ts) L = L := by
    simp [applyOp, h1]
  exact ⟨h1, h2, by rw [h2]; exact h1⟩

/-- Witness for C6 on the empty Ledger. -/
theorem unlock_unknown_message_witness :
    unlock 0 ("near") ("alice") ("bob") 5 ("tok") 1 Ledger.empty =
      .error .UnknownMessage ∧
    applyOp (.unlockOp 0 ("near") ("alice") ("bob") 5 ("tok") 1) Ledger.empty =
      Ledger.empty ∧
    unlock 0 ("near") ("alice") ("bob") 5 ("tok") 1
      (applyOp (.unlockOp 0 ("near") ("alice") ("bob") 5 ("tok") 1) Ledger.empty) =
      .error .UnknownMessage :=
  unlock_unknown_message Ledger.empty 0 ("near") ("alice") ("bob") 5 ("tok") 1 rfl

/-- C7: `unlock` with a claimed amount different from the originally locked
amount fails with `AmountMismatch`; the Ledger is unchanged (so the lock
record remains unconsumed) and a retry produces the same rejection. -/
theorem unlock_amount_mismatch
    (L : Ledger) (mid : Nat) (r : LockRecord) (sc sa rcp : String)
    (ca : Nat) (ct : String) (ts : Nat)
    (hf : findLock mid L = some r) (hc : r.consumed = false)
    (hne : ca ≠ r.amount) :
    unlock mid sc sa rcp ca ct ts L = .error .AmountMismatch ∧
    applyOp (.unlockOp mid sc sa rcp ca ct ts) L = L ∧
    unlock mid sc sa rcp ca ct ts
      (applyOp (.unlockOp mid sc sa rcp ca ct ts) L) =
      .error .AmountMismatch := by
  have h1 : unlock mid sc sa rcp ca ct ts L = .error .AmountMismatch := by
    simp [unlock, hf, hc, hne]
  have h2 : applyOp (.unlockOp mid sc sa rcp ca ct ts) L = L := by
    simp [applyOp, h1]
  exact ⟨h1, h2, by rw [h2]; exact h1⟩

/-- Witness for C7 on `sampleLedger`: claiming 7 against the locked 100. -/
theorem unlock_amount_mismatch_witness :
    unlock 0 ("near") ("alice") ("bob") 7 ("tok") 1 sampleLedger =
      .error .AmountMismatch ∧
    applyOp (.unlockOp 0 ("near") ("alice") ("bob") 7 ("tok") 1) sampleLedger =
      sampleLedger ∧
    unlock 0 ("near") ("alice") ("bob") 7 ("tok") 1
      (applyOp (.unlockOp 0 ("near") ("alice") ("bob") 7 ("tok") 1) sampleLedger) =
      .error .AmountMismatch :=
  unlock_amount_mismatch sampleLedger 0
    ⟨0, ("alice"), ("tok"), 100, ("eth"), ("0xabc"), 0, 5, false⟩
    ("near") ("alice") ("bob") 7 ("tok") 1 rfl rfl (by decide)

/-- C8: across any operation sequence from a well-formed Ledger, the nonces
of the lock records created by the same sender are strictly increasing in
creation order, and no nonce value is ever reused (the full nonce list has
no duplicates). -/
theorem nonce_monotonicity (L : Ledger) (hWF : WF L) (ops : List Op)
    (s : String) :
    ((((runOps ops L).locks.filter (fun r => r.sender == s)).map
        (fun r => r.nonce)).Pairwise (· < ·)) ∧
    (((runOps ops L).locks.map (fun r => r.nonce)).Nodup) := by
  have hWF2 := wf_runOps ops L hWF
  have hpw := hWF2.2
  constructor
  · have hsub : ((runOps ops L).locks.filter (fun r => r.sender == s)).Sublist
        (runOps ops L).locks := List.filter_sublist _
    have hall := List.pairwise_map.mp hpw
    exact List.pairwise_map.mpr (List.Pairwise.sublist hsub hall)
  · exact List.Pairwise.imp (fun h => Nat.ne_of_lt h) hpw

/-- Witness for C8: two locks by the same sender on the empty Ledger. -/
theorem nonce_monotonicity_witness :
    ((((runOps [Op.lockOp ("alice") ("tok") 10 ("eth") ("0x1") 1,
                Op.lockOp ("alice") ("tok") 20 ("eth") ("0x2") 2]
          Ledger.empty).locks.filter (fun r => r.sender == ("alice"))).map
        (fun r => r.nonce)).Pairwise (· < ·)) ∧
    (((runOps [Op.lockOp ("alice") ("tok") 10 ("eth") ("0x1") 1,
               Op.lockOp ("alice") ("tok") 20 ("eth") ("0x2") 2]
        Ledger.empty).locks.map (fun r => r.nonce)).Nodup) :=
  nonce_monotonicity Ledger.empty (by decide)
    [Op.lockOp ("alice") ("tok") 10 ("eth") ("0x1") 1,
     Op.lockOp ("alice") ("tok") 20 ("eth") ("0x2") 2] ("alice")

/-- C9: event emission is a pure side effect with no influence on Ledger
state — each emitter only appends its log line to the host log and leaves
every Ledger field unchanged. -/
theorem emit_pure_side_effect (eL : TokenLockedEvent) (eU : TokenUnlockedEvent)
    (s : EmitterState) :
    (emit_token_locked_event_st eL s).ledger = s.ledger ∧
    (emit_token_locked_event_st eL s).logs = s.logs ++ [emit_token_locked_event eL] ∧
    (emit_token_unlocked_event_st eU s).ledger = s.ledger ∧
    (emit_token_unlocked_event_st eU s).logs = s.logs ++ [emit_token_unlocked_event eU] :=
  ⟨rfl, rfl, rfl, rfl⟩

/-- C10: the event types are round-trip serializable — deserializing the
serialized field set of any `TokenLockedEvent` or `TokenUnlockedEvent`
recovers the original event field-by-field. -/
theorem event_roundtrip (eL : TokenLockedEvent) (eU : TokenUnlockedEvent) :
    tokenLockedFromFields (tokenLockedFields eL) = some eL ∧
    tokenUnlockedFromFields (tokenUnlockedFields eU) = some eU :=
  ⟨rfl, rfl⟩

end MetaBridge
